import Mathlib

set_option linter.unusedVariables false
set_option maxRecDepth 8192

/-!
Verification development for the BankBot banking demo application.

The definitions below are a shallow embedding of the Python sources
(`bankbot.py`, `security.py`, `config.py`):
  * timestamps are modelled as integer seconds (`Int`); a Python
    `timedelta(minutes = m)` is `60 * m` seconds;
  * monetary amounts are modelled as integer paise (`Int`, hundredths of
    a rupee), on which the float arithmetic of the source is exact;
  * the Python substring test `pat in s` is `strContains s pat`;
  * fallible library calls are modelled with `Option`.
-/

namespace BankBot

/-- Predicate `chPrefix p l`: true when `p` is a prefix of `l`. -/
def chPrefix : List Char → List Char → Bool
  | [], _ => true
  | _ :: _, [] => false
  | a :: as, b :: bs => a == b && chPrefix as bs

/-- Predicate `chInfix p l`: true when `p` occurs as a contiguous sublist of `l`. -/
def chInfix (p : List Char) : List Char → Bool
  | [] => chPrefix p []
  | b :: bs => chPrefix p (b :: bs) || chInfix p bs

/-- Model of the Python substring test `pat in s`. -/
def strContains (s pat : String) : Bool :=
  chInfix pat.toList s.toList

/-- ASCII lower-casing of one character (the sources only ever lower-case
ASCII text, so this models the Python `str.lower`). -/
def lowerChar (c : Char) : Char :=
  if 65 ≤ c.toNat ∧ c.toNat ≤ 90 then Char.ofNat (c.toNat + 32) else c

/-- Model of Python `s.lower()` on ASCII text. -/
def pyLower (s : String) : String :=
  String.mk (s.toList.map lowerChar)

/-! ## Domain classifier (`bankbot.py`, `is_banking_query`) -/

/-- The `RESTRICTED_TOPICS` deny-list table from `bankbot.py`. -/
def RESTRICTED_TOPICS : List (String × List String) :=
  [ ("technology", ["coding", "programming", "python", "javascript", "html", "css",
      "software", "computer", "algorithm", "debug"]),
    ("general_knowledge", ["history", "politics", "geography", "science", "physics",
      "chemistry", "biology", "math", "capital"]),
    ("entertainment", ["joke", "riddle", "story", "movie", "film", "music", "song",
      "game", "meme"]),
    ("lifestyle", ["cooking", "recipe", "fashion", "travel", "sport", "fitness",
      "exercise", "workout"]),
    ("other", ["weather", "news", "celebrity", "astrology", "horoscope", "poem", "essay"]) ]

/-- The `BANKING_KEYWORDS` allow-list table from `bankbot.py`. -/
def BANKING_KEYWORDS : List (String × List String) :=
  [ ("account", ["balance", "account", "statement", "profile", "details", "info", "summary"]),
    ("transactions", ["transaction", "history", "payment", "transfer", "sent", "received",
      "recent", "last"]),
    ("services", ["loan", "credit", "debit", "card", "interest", "savings", "deposit",
      "fixed", "fd"]),
    ("operations", ["send", "pay", "withdraw", "deposit", "transfer", "upi", "money"]),
    ("queries", ["branch", "hours", "contact", "support", "help", "limit", "policy",
      "rate", "fee"]),
    ("financial", ["spend", "expense", "income", "budget", "investment", "portfolio"]) ]

/-- The small-talk greeting list inside `is_banking_query`. -/
def small_talk : List String :=
  ["hi", "hello", "hey", "how are you", "how do you do",
   "who are you", "what can you do", "thanks", "thank you",
   "good morning", "good evening", "nice to meet you"]

/-- The fixed off-domain refusal message. -/
def offDomainRefusal : String :=
  "I apologize, but I can only assist with banking and financial queries."

/-- The generic rejection used when neither list matches. -/
def noKeywordRejection : String :=
  "I can only assist with banking-related questions about your account, transactions, transfers, loans, and other financial services."

/-- Function `is_banking_query` from `bankbot.py`: greeting allowlist, then deny list,
then banking allow list, else generic rejection. -/
def is_banking_query (prompt : String) : Bool × String :=
  let prompt_lower := pyLower prompt
  if small_talk.any (fun phrase => strContains prompt_lower phrase) then
    (true, "conversation")
  else if RESTRICTED_TOPICS.any (fun cg => cg.2.any (fun kw => strContains prompt_lower kw)) then
    (false, offDomainRefusal)
  else if BANKING_KEYWORDS.any (fun cg => cg.2.any (fun kw => strContains prompt_lower kw)) then
    (true, "valid banking query")
  else
    (false, noKeywordRejection)

/-! ## Post-filter (`bankbot.py`, `validate_ollama_response`) -/

/-- The `off_topic_indicators` list from `validate_ollama_response`. -/
def off_topic_indicators : List String :=
  ["here is a python script", "here\x27s some code",
   "def ", "function(", "import ", "recipe for", "ingredients:",
   "world war", "the capital of", "once upon a time"]

/-- The `banking_terms` list from `validate_ollama_response`. -/
def banking_terms : List String :=
  ["account", "balance", "transaction", "transfer", "bank", "credit", "debit",
   "loan", "deposit"]

/-- Function `validate_ollama_response` from `bankbot.py` (the `original_query` argument is
unused in the source as well). -/
def validate_ollama_response (response : String) (original_query : String) : String :=
  let response_lower := pyLower response
  if off_topic_indicators.any (fun ind => strContains response_lower ind) then
    offDomainRefusal
  else
    let has_banking_term := banking_terms.any (fun term => strContains response_lower term)
    if response.length > 800 && !has_banking_term then
      offDomainRefusal
    else
      response

/-! ## Rate limiter (`security.py`, class `RateLimiter`)

The Python class keeps `attempts : defaultdict(identifier -> list of datetimes)`.
Every operation touches only the list of one identifier, so the embedding
carries that per-identifier list explicitly and the configuration in a
structure. -/

/-- Configuration of `RateLimiter.__init__`. -/
structure RateLimiter where
  max_attempts : Nat
  lockout_minutes : Nat
deriving DecidableEq

/-- The pruning step `[t for t in attempts if t > cutoff]` with
`cutoff = now - timedelta(minutes = lockout_minutes)`. -/
def pruneAttempts (rl : RateLimiter) (now : Int) (ts : List Int) : List Int :=
  ts.filter (fun t => decide (t > now - 60 * (rl.lockout_minutes : Int)))

/-- Method `RateLimiter.record_attempt`: append now, then prune stale entries.
Returns the new per-identifier list. -/
def record_attempt (rl : RateLimiter) (now : Int) (ts : List Int) : List Int :=
  pruneAttempts rl now (ts ++ [now])

/-- Method `RateLimiter.is_locked_out`: prune, then compare the count with
`max_attempts`; the lockout message computes
`minutes_left = max(0, (unlock_time - now).seconds // 60)` from the oldest
surviving attempt.  Returns (new per-identifier list, locked, message). -/
def is_locked_out (rl : RateLimiter) (now : Int) (ts : List Int) :
    List Int × Bool × Option String :=
  let pruned := pruneAttempts rl now ts
  if pruned.length ≥ rl.max_attempts then
    match pruned with
    | [] => (pruned, true, some "Account temporarily locked.")
    | oldest :: _ =>
      let unlock_time := oldest + 60 * (rl.lockout_minutes : Int)
      let remaining := unlock_time - now
      let minutes_left := remaining.toNat / 60
      (pruned, true,
        some ("Too many failed attempts. Try again in " ++ toString minutes_left
          ++ " minutes."))
  else
    (pruned, false, none)

/-- Method `RateLimiter.reset_attempts`: the attempt history of the identifier is dropped. -/
def reset_attempts (_rl : RateLimiter) (_ts : List Int) : List Int := []

/-! ## Session manager (`security.py`, class `SessionManager`) -/

/-- A session dict as built by `SessionManager.create_session`; the
`last_activity` key may be absent on an arbitrary dict, hence `Option`. -/
structure Session where
  user_id : String
  token : String
  created_at : Int
  last_activity : Option Int
deriving DecidableEq

/-- Method `SessionManager.is_session_valid`: false on an absent session or a
session without a last-activity timestamp, else `elapsed < timeout`. -/
def is_session_valid (timeout_minutes : Nat) (now : Int) (session : Option Session) :
    Bool :=
  match session with
  | none => false
  | some s =>
    match s.last_activity with
    | none => false
    | some la => decide (now - la < 60 * (timeout_minutes : Int))

/-- Method `SessionManager.update_activity`: refresh `last_activity` to now;
no-op when the session is absent. -/
def update_activity (now : Int) (session : Option Session) : Option Session :=
  match session with
  | none => none
  | some s => some { s with last_activity := some now }

/-! ## Input validation (`security.py`, class `InputValidator`) and the
transfer processor (`bankbot.py`, `process_transfer`)

Monetary values are integer paise (hundredths of a rupee): every amount the
program stores or compares is an exact multiple of 0.01, which the Python
floats represent exactly on these paths, so a rupee value `x` appears here
as `100 * x`.  The Python format specifier `{:,.2f}` is modelled by
`formatComma2` (comma-grouped, two decimals) and `str(float)` on an exact
decimal by `pyFloatRepr`. -/

/-- Digit grouping of a reversed digit string: a comma after every third
digit when more digits follow. -/
def commaGroupAux : List Char → Nat → List Char
  | [], _ => []
  | c :: cs, n =>
    c :: (if n % 3 == 0 && !cs.isEmpty then ',' :: commaGroupAux cs (n + 1)
          else commaGroupAux cs (n + 1))

/-- Insert thousands separators into a digit string, e.g. `"50000" ↦ "50,000"`. -/
def commaGroup (s : String) : String :=
  String.mk ((commaGroupAux s.toList.reverse 1).reverse)

/-- Python `"{:,.2f}".format(x)` on the non-negative value `x` given in
paise. -/
def formatComma2 (paise : Int) : String :=
  let cents := paise.toNat
  let rupees := cents / 100
  let frac := cents % 100
  commaGroup (toString rupees) ++ "." ++
    (if frac < 10 then "0" ++ toString frac else toString frac)

/-- Python `str(float)` on the non-negative exact decimal given in paise
(the source only prints the default `min_amount = 1.0` this way). -/
def pyFloatRepr (paise : Int) : String :=
  let cents := paise.toNat
  if cents % 100 == 0 then toString (cents / 100) ++ ".0"
  else if cents % 10 == 0 then
    toString (cents / 100) ++ "." ++ toString (cents / 10 % 10)
  else
    toString (cents / 100) ++ "." ++
      (if cents % 100 < 10 then "0" else "") ++ toString (cents % 100)

/-- Method `InputValidator.validate_amount` (arguments positional: amount,
max_amount, min_amount; all in paise). -/
def validate_amount (amount max_amount min_amount : Int) : Option String :=
  if amount < min_amount then
    some ("Amount must be at least Rs. " ++ pyFloatRepr min_amount)
  else if amount > max_amount then
    some ("Amount cannot exceed Rs. " ++ formatComma2 max_amount)
  else
    none

/-- Python `s.strip()`: remove leading and trailing whitespace. -/
def stripChars (l : List Char) : List Char :=
  ((l.dropWhile Char.isWhitespace).reverse.dropWhile Char.isWhitespace).reverse

/-- Method `InputValidator.sanitize_text`: drop angle brackets, double and single quotes, then strip
surrounding whitespace. -/
def sanitize_text (text : String) : String :=
  String.mk (stripChars (text.toList.filter
    (fun c => !(c == '<' || c == '>' || c == '\"' || c == '\x27'))))

/-- A transaction record as built by `process_transfer` / stored in the db. -/
structure Txn where
  date : String
  desc : String
  cat : String
  amt : Int
  txnType : String
deriving DecidableEq

/-- The per-user record fields of the credential store that the transfer and
login paths read or write (`load_data` keys `name`, `hashed_pin`, `balance`,
`type`, `failed_login_attempts`, `history`, `transactions`). -/
structure User where
  name : String
  hashed_pin : String
  balance : Int
  acctType : String
  failed_login_attempts : Nat
  history : List Int
  transactions : List Txn
deriving DecidableEq

/-- Function `process_transfer` from `bankbot.py`: validate the amount against the
caller-fixed ceiling 50000.00 rupees (5000000 paise), sanitize the
recipient, check the balance, then debit, prepend the transaction, append
the new balance to `history` and return the confirmation.  `today` stands
for `datetime.now().strftime`. -/
def process_transfer (user : User) (recipient : String) (amount : Int)
    (today : String) : Bool × String × User :=
  match validate_amount amount 5000000 100 with
  | some amount_error => (false, amount_error, user)
  | none =>
    let recipient := sanitize_text recipient
    if recipient == "" then
      (false, "Recipient name is required", user)
    else if amount > user.balance then
      (false, "Insufficient funds.", user)
    else
      let newBalance := user.balance - amount
      let new_txn : Txn :=
        { date := today
          desc := "Transfer to " ++ recipient
          cat := "Transfer"
          amt := -amount
          txnType := "Debit" }
      (true,
        "Transfer successful! Rs. " ++ formatComma2 amount ++ " sent to " ++ recipient,
        { user with
            balance := newBalance
            transactions := new_txn :: user.transactions
            history := user.history ++ [newBalance] })

/-! ## Password hasher (`security.py`, class `PasswordHasher`) -/

/-- Modelled from the spec: the bcrypt primitive (`bcrypt.hashpw` with a
`gensalt(rounds=12)` salt) is an external library, not part of `src/`; §4.1
of the spec gives its contract ("salted one-way digest", "`verify` returns
true iff the secret reproduces the digest", "returns false (never raises) on
malformed digests").  The model makes the digest a function of salt and
secret: `"$2b$12$" ++ salt ++ "$" ++ secret-encoding` (one-wayness is not
observable in the model and no claim relies on it). -/
def bcrypt_hashpw (salt password : String) : String :=
  String.mk ("$2b$12$".toList ++ salt.toList ++ '$' :: password.toList)

/-- Split a character list at its first `'$'`; `none` when there is no `'$'`. -/
def splitAtDollar : List Char → Option (List Char × List Char)
  | [] => none
  | c :: cs =>
    if c == '$' then some ([], cs)
    else (splitAtDollar cs).map (fun p => (c :: p.1, p.2))

/-- Modelled from the spec: `bcrypt.checkpw`.  A digest that does not parse
as prefix-salt-body is malformed and makes the primitive raise, modelled as
`none`; a well-formed digest compares against the recomputed digest. -/
def bcrypt_checkpw (password hashed : String) : Option Bool :=
  let pre := "$2b$12$".toList
  if chPrefix pre hashed.toList then
    match splitAtDollar (hashed.toList.drop pre.length) with
    | none => none
    | some (salt, _) => some (hashed == bcrypt_hashpw (String.mk salt) password)
  else none

/-- Method `PasswordHasher.hash_password` for a given salt drawn by `gensalt`. -/
def hash_password (salt password : String) : String :=
  bcrypt_hashpw salt password

/-- Method `PasswordHasher.verify_password`: delegate to `checkpw` and turn any
raised error into `false` (the `try/except` in `security.py`). -/
def verify_password (password hashed : String) : Bool :=
  match bcrypt_checkpw password hashed with
  | some b => b
  | none => false

/-! ## Login controller (`bankbot.py`, `login_screen`, submit branch)

The embedding covers the submit handler after both format validations have
passed (step 2 onwards): the rate-limit check, the credential check against
the store, and the three user-visible outcomes.  The bcrypt comparison is
abstracted into a `verify` parameter so that properties quantify over any
verifier; `ts` is the attempt list of the rate limiter for `uid` and `db` the
credential store. -/

/-- The user-visible outcome of one submit. -/
inductive LoginOutcome where
  | locked (msg : String)
  | success
  | failure (msg : String)
deriving DecidableEq

/-- State after one submit: outcome, the attempt list of the rate limiter for the
identifier, and the credential store. -/
structure LoginResult where
  outcome : LoginOutcome
  attempts : List Int
  db : List (String × User)
deriving DecidableEq

/-- Lookup `st.session_state.db.get(uid)` over an association list. -/
def lookupUser (db : List (String × User)) (uid : String) : Option User :=
  (db.find? (fun p => p.1 == uid)).map (fun p => p.2)

/-- Replace the record of `uid` by `f` applied to it. -/
def updateUser (db : List (String × User)) (uid : String) (f : User → User) :
    List (String × User) :=
  db.map (fun p => if p.1 == uid then (p.1, f p.2) else p)

/-- The submit branch of `login_screen` for well-formed inputs: rate-limit
check, then lookup and verify; on failure record the attempt and report
either the remaining attempts `MAX_LOGIN_ATTEMPTS - attempts_made` or the
lock warning. -/
def login_submit (verify : String → String → Bool) (db : List (String × User))
    (rl : RateLimiter) (ts : List Int) (uid pin : String) (now : Int) : LoginResult :=
  let pr := is_locked_out rl now ts
  let ts1 := pr.1
  if pr.2.1 then
    { outcome := .locked ("🔒 " ++ (pr.2.2.getD "None")), attempts := ts1, db := db }
  else
    let user_data := lookupUser db uid
    let verified :=
      match user_data with
      | some u => verify pin u.hashed_pin
      | none => false
    if verified then
      { outcome := .success
        attempts := reset_attempts rl ts1
        db := updateUser db uid (fun u => { u with failed_login_attempts := 0 }) }
    else
      let ts2 := record_attempt rl now ts1
      let db2 :=
        match user_data with
        | some _ => updateUser db uid
            (fun u => { u with failed_login_attempts := u.failed_login_attempts + 1 })
        | none => db
      let attempts_made := ts2.length
      let attempts_left : Int := (rl.max_attempts : Int) - attempts_made
      let msg :=
        if attempts_left > 0 then
          "❌ Invalid credentials. " ++ toString attempts_left ++ " attempts remaining."
        else
          "❌ Invalid credentials. Account will be locked."
      { outcome := .failure msg, attempts := ts2, db := db2 }

/-- The first default account of `load_data` (fields the transfer path
touches); its balance is 45750.50 rupees, i.e. 4575050 paise. -/
def demoUser : User :=
  { name := "customer1"
    hashed_pin := "$2b$12$salt$0000"
    balance := 4575050
    acctType := "Premium Savings"
    failed_login_attempts := 0
    history := [4200000, 4350000, 4500000, 4480000, 4420000, 4575000]
    transactions :=
      [ ⟨"2024-12-05", "Salary Credit", "Income", 500000, "Credit"⟩,
        ⟨"2024-12-03", "Amazon Purchase", "Shopping", -125000, "Debit"⟩,
        ⟨"2024-12-01", "Rent Payment", "Bills", -350000, "Debit"⟩,
        ⟨"2024-11-28", "Freelance Payment", "Income", 200000, "Credit"⟩,
        ⟨"2024-11-25", "Grocery Shopping", "Food", -85000, "Debit"⟩ ] }

/-! ## Theorems -/

/-- C9: `is_session_valid` returns false when the session is absent or has
no last-activity timestamp, and otherwise returns true iff now − last_activity
is strictly below the configured timeout. -/
theorem session_validity_C9 (timeout_minutes : Nat) (now : Int) :
    is_session_valid timeout_minutes now none = false ∧
    (∀ s : Session, s.last_activity = none →
      is_session_valid timeout_minutes now (some s) = false) ∧
    (∀ (s : Session) (la : Int), s.last_activity = some la →
      (is_session_valid timeout_minutes now (some s) = true ↔
        now - la < 60 * (timeout_minutes : Int))) := by
  refine ⟨rfl, ?_, ?_⟩
  · intro s h
    simp [is_session_valid, h]
  · intro s la h
    simp [is_session_valid, h]

/-- Witness for C9 at a concrete clock and sessions. -/
theorem session_validity_C9_witness :
    is_session_valid 15 1000 none = false ∧
    is_session_valid 15 1000 (some ⟨"u1", "tok", 0, none⟩) = false ∧
    (is_session_valid 15 1000 (some ⟨"u1", "tok", 0, some 200⟩) = true ↔
      (1000 : Int) - 200 < 60 * (15 : Int)) := by
  obtain ⟨h1, h2, h3⟩ := session_validity_C9 15 1000
  exact ⟨h1, h2 ⟨"u1", "tok", 0, none⟩ rfl, h3 ⟨"u1", "tok", 0, some 200⟩ 200 rfl⟩

/-- C3: the deny list is checked before the allow list, so any query with a
restricted keyword and no greeting phrase is rejected with the fixed refusal
even when it also contains a banking keyword; concretely, the balance query
is accepted, the joke query rejected with the fixed refusal, "hello" is
classified as conversation, and a loan-plus-joke query is rejected. -/
theorem classifier_deny_precedence_C3 :
    (∀ prompt : String,
      small_talk.any (fun phrase => strContains (pyLower prompt) phrase) = false →
      RESTRICTED_TOPICS.any
        (fun cg => cg.2.any (fun kw => strContains (pyLower prompt) kw)) = true →
      BANKING_KEYWORDS.any
        (fun cg => cg.2.any (fun kw => strContains (pyLower prompt) kw)) = true →
      is_banking_query prompt = (false, offDomainRefusal)) ∧
    is_banking_query "What is my balance?" = (true, "valid banking query") ∧
    is_banking_query "Tell me a joke" = (false, offDomainRefusal) ∧
    is_banking_query "hello" = (true, "conversation") ∧
    is_banking_query "tell me a loan joke" = (false, offDomainRefusal) := by
  refine ⟨?_, by decide, by decide, by decide, by decide⟩
  intro prompt h1 h2 _h3
  simp [is_banking_query, h1, h2]

/-- Witness for C3 at a query containing both a banking and a restricted
keyword and no greeting phrase. -/
theorem classifier_deny_precedence_C3_witness :
    small_talk.any (fun phrase => strContains (pyLower "tell me a loan joke") phrase)
      = false ∧
    RESTRICTED_TOPICS.any
      (fun cg => cg.2.any (fun kw => strContains (pyLower "tell me a loan joke") kw))
      = true ∧
    BANKING_KEYWORDS.any
      (fun cg => cg.2.any (fun kw => strContains (pyLower "tell me a loan joke") kw))
      = true ∧
    is_banking_query "tell me a loan joke" = (false, offDomainRefusal) :=
  ⟨by decide, by decide, by decide,
    (classifier_deny_precedence_C3).1 "tell me a loan joke"
      (by decide) (by decide) (by decide)⟩

/-- C10: the greeting check runs before the deny list and matches raw
substrings, so any input whose lower-cased text contains a small-talk phrase
— also inside a longer word, e.g. "hi" inside "history" or "this" — is
classified as in-scope "conversation" even when deny-list keywords occur. -/
theorem classifier_greeting_precedence_C10 :
    (∀ prompt : String,
      small_talk.any (fun phrase => strContains (pyLower prompt) phrase) = true →
      is_banking_query prompt = (true, "conversation")) ∧
    is_banking_query "history" = (true, "conversation") ∧
    is_banking_query "this is a joke" = (true, "conversation") := by
  refine ⟨?_, by decide, by decide⟩
  intro prompt h1
  simp [is_banking_query, h1]

/-- Witness for C10 at an input whose only small-talk match is "hi" inside
"history" while it also contains deny-list keywords. -/
theorem classifier_greeting_precedence_C10_witness :
    small_talk.any
      (fun phrase => strContains (pyLower "history of music jokes") phrase) = true ∧
    is_banking_query "history of music jokes" = (true, "conversation") :=
  ⟨by decide,
    (classifier_greeting_precedence_C10).1 "history of music jokes" (by decide)⟩

/-- C4: the post-filter replaces a response by the fixed refusal whenever it
contains an off-topic indicator substring (regardless of banking terms), or
whenever it is longer than 800 characters and contains no banking-domain
term; a response with no indicator that contains "balance" passes through
unmodified whatever its length. -/
theorem post_filter_C4 :
    (∀ response original_query : String,
      off_topic_indicators.any
        (fun ind => strContains (pyLower response) ind) = true →
      validate_ollama_response response original_query = offDomainRefusal) ∧
    (∀ response original_query : String,
      response.length > 800 →
      banking_terms.any (fun term => strContains (pyLower response) term) = false →
      validate_ollama_response response original_query = offDomainRefusal) ∧
    (∀ response original_query : String,
      off_topic_indicators.any
        (fun ind => strContains (pyLower response) ind) = false →
      strContains (pyLower response) "balance" = true →
      validate_ollama_response response original_query = response) := by
  refine ⟨?_, ?_, ?_⟩
  · intro response original_query h1
    simp [validate_ollama_response, h1]
  · intro response original_query h1 h2
    simp [validate_ollama_response, h1, h2]
  · intro response original_query h1 h2
    have hterm : banking_terms.any
        (fun term => strContains (pyLower response) term) = true := by
      simp only [List.any_eq_true]
      exact ⟨"balance", by simp [banking_terms], h2⟩
    simp [validate_ollama_response, h1, hterm]

/-- Witness for C4: a code-indicator response mentioning "balance" is still
replaced, a 900-character response with no banking term is replaced, and a
900-character response ending in "balance" passes through. -/
theorem post_filter_C4_witness :
    validate_ollama_response "Sure, here\x27s some code to check your balance." "q"
      = offDomainRefusal ∧
    (String.mk (List.replicate 900 'z')).length > 800 ∧
    validate_ollama_response (String.mk (List.replicate 900 'z')) "q"
      = offDomainRefusal ∧
    validate_ollama_response (String.mk (List.replicate 893 'z') ++ "balance") "q"
      = String.mk (List.replicate 893 'z') ++ "balance" :=
  ⟨(post_filter_C4).1 "Sure, here\x27s some code to check your balance." "q" (by decide),
   by decide,
   (post_filter_C4).2.1 (String.mk (List.replicate 900 'z')) "q" (by decide) (by decide),
   (post_filter_C4).2.2 (String.mk (List.replicate 893 'z') ++ "balance") "q"
     (by decide) (by decide)⟩

/-- C2: with a positive `max_attempts`, an identifier whose attempt list has
exactly `max_attempts` entries inside the lockout window is locked; once
every attempt has aged past the window it is no longer locked, with no
`reset_attempts` call; and an identifier with zero recorded attempts is
never locked. -/
theorem rate_limiter_lockout_C2 (rl : RateLimiter) (now : Int) (ts : List Int)
    (hmax : 0 < rl.max_attempts) :
    ((∀ t ∈ ts, t > now - 60 * (rl.lockout_minutes : Int)) →
      ts.length = rl.max_attempts → (is_locked_out rl now ts).2.1 = true) ∧
    ((∀ t ∈ ts, t ≤ now - 60 * (rl.lockout_minutes : Int)) →
      (is_locked_out rl now ts).2.1 = false) ∧
    is_locked_out rl now [] = ([], false, none) := by
  refine ⟨?_, ?_, ?_⟩
  · intro hin hlen
    have hfe : pruneAttempts rl now ts = ts := by
      rw [pruneAttempts, List.filter_eq_self]
      exact fun a ha => decide_eq_true (hin a ha)
    cases ts with
    | nil => exact absurd (hlen ▸ hmax) (by simp)
    | cons a ts' =>
      simp only [is_locked_out, hfe, hlen, ge_iff_le, le_refl, if_true]
  · intro hout
    have hfe : pruneAttempts rl now ts = [] := by
      rw [pruneAttempts, List.filter_eq_nil_iff]
      intro a ha
      simpa using not_lt.mpr (hout a ha)
    simp only [is_locked_out, hfe, List.length_nil, ge_iff_le]
    rw [if_neg (by omega)]
  · simp only [is_locked_out, pruneAttempts, List.filter_nil, List.length_nil, ge_iff_le]
    rw [if_neg (by omega)]

/-- Witness for C2 with the configured limiter (5 attempts, 15 minutes):
five in-window attempts lock, five stale attempts do not, and the empty
history does not. -/
theorem rate_limiter_lockout_C2_witness :
    (is_locked_out ⟨5, 15⟩ 30 [0, 5, 10, 15, 20]).2.1 = true ∧
    (is_locked_out ⟨5, 15⟩ 2000 [0, 5, 10, 15, 20]).2.1 = false ∧
    is_locked_out ⟨5, 15⟩ 2000 [] = ([], false, none) :=
  ⟨(rate_limiter_lockout_C2 ⟨5, 15⟩ 30 [0, 5, 10, 15, 20] (by decide)).1
      (by decide) (by decide),
   (rate_limiter_lockout_C2 ⟨5, 15⟩ 2000 [0, 5, 10, 15, 20] (by decide)).2.1
      (by decide),
   (rate_limiter_lockout_C2 ⟨5, 15⟩ 2000 [] (by decide)).2.2⟩

/-- C1 counterexample: five attempts at second 0 with the configured limiter
(5 attempts, 15 minutes) checked at second 30: the remaining time is 870
seconds, whose ceiling in minutes is 15, yet the message reports
`870 // 60 = 14` minutes — the code floors, it does not ceil. -/
theorem lockout_minutes_ceil_cex :
    (is_locked_out ⟨5, 15⟩ 30 [0, 0, 0, 0, 0]).2.1 = true ∧
    (is_locked_out ⟨5, 15⟩ 30 [0, 0, 0, 0, 0]).2.2 =
      some "Too many failed attempts. Try again in 14 minutes." ∧
    (((0 + 60 * 15 - 30 : Int).toNat + 59) / 60 : Nat) = 15 ∧
    (is_locked_out ⟨5, 15⟩ 30 [0, 0, 0, 0, 0]).2.2 ≠
      some ("Too many failed attempts. Try again in "
        ++ toString (((0 + 60 * 15 - 30 : Int).toNat + 59) / 60 : Nat)
        ++ " minutes.") := by
  refine ⟨by decide, by decide, by decide, by decide⟩

/-- C1 as amended: when the pruned attempt list reaches `max_attempts`, the
limiter reports locked together with a try-again message whose minute count
is the floor (not the ceiling) of the remaining seconds
`(oldest_attempt + lockout_window) − now` divided by 60. -/
theorem lockout_minutes_floor (rl : RateLimiter) (now : Int) (ts : List Int)
    (oldest : Int) (rest : List Int)
    (hp : pruneAttempts rl now ts = oldest :: rest)
    (hlen : rl.max_attempts ≤ (oldest :: rest).length) :
    is_locked_out rl now ts =
      (oldest :: rest, true,
        some ("Too many failed attempts. Try again in "
          ++ toString ((oldest + 60 * (rl.lockout_minutes : Int) - now).toNat / 60)
          ++ " minutes.")) := by
  simp only [is_locked_out, hp, ge_iff_le, hlen, if_true]

/-- Witness for the amended C1 statement at the counterexample input: the
reported minute count is the floor value 14. -/
theorem lockout_minutes_floor_witness :
    is_locked_out ⟨5, 15⟩ 30 [0, 0, 0, 0, 0] =
      ([0, 0, 0, 0, 0], true,
        some ("Too many failed attempts. Try again in "
          ++ toString ((0 + 60 * (15 : Int) - 30).toNat / 60)
          ++ " minutes.")) :=
  lockout_minutes_floor ⟨5, 15⟩ 30 [0, 0, 0, 0, 0] 0 [0, 0, 0, 0]
    (by decide) (by decide)

/-- C5: a transfer of a valid amount `a` (within 1.00 to 50000.00 rupees,
i.e. 100 to 5000000 paise) to a non-empty sanitized recipient from a
sufficient balance `b` debits the balance to `b − a`, prepends the new
Transfer transaction with amount `−a` and a description naming the
recipient, appends the post-transfer balance to the history, and confirms
with a message carrying the amount and recipient; on the demo balance
45750.50 a transfer of 1250.00 yields 44500.50 while a transfer of
100000.00 is rejected with the balance unchanged. -/
theorem transfer_success_C5 :
    (∀ (user : User) (r : String) (a : Int) (today : String),
      100 ≤ a → a ≤ 5000000 → sanitize_text r ≠ "" → a ≤ user.balance →
      process_transfer user r a today =
        (true,
          "Transfer successful! Rs. " ++ formatComma2 a ++ " sent to " ++ sanitize_text r,
          { user with
              balance := user.balance - a
              transactions :=
                { date := today
                  desc := "Transfer to " ++ sanitize_text r
                  cat := "Transfer"
                  amt := -a
                  txnType := "Debit" } :: user.transactions
              history := user.history ++ [user.balance - a] })) ∧
    process_transfer demoUser "Alex" 125000 "2024-12-06" =
      (true, "Transfer successful! Rs. 1,250.00 sent to Alex",
        { demoUser with
            balance := 4450050
            transactions :=
              ⟨"2024-12-06", "Transfer to Alex", "Transfer", -125000, "Debit"⟩
                :: demoUser.transactions
            history := demoUser.history ++ [4450050] }) ∧
    (process_transfer demoUser "Alex" 10000000 "2024-12-06").1 = false ∧
    (process_transfer demoUser "Alex" 10000000 "2024-12-06").2.2 = demoUser := by
  refine ⟨?_, by decide, by decide, by decide⟩
  intro user r a today h1 h2 hr hb
  have hv : validate_amount a 5000000 100 = none := by
    rw [validate_amount, if_neg (not_lt.mpr h1), if_neg (not_lt.mpr h2)]
  have hre : (sanitize_text r == "") = false := by
    simpa using hr
  simp only [process_transfer, hv, hre, Bool.false_eq_true, if_false,
    if_neg (not_lt.mpr hb)]

/-- Witness for the universal part of C5: the demo transfer of 1250.00 to "Alex"
on balance 45750.50. -/
theorem transfer_success_C5_witness :
    process_transfer demoUser "Alex" 125000 "2024-12-06" =
      (true,
        "Transfer successful! Rs. " ++ formatComma2 125000 ++ " sent to "
          ++ sanitize_text "Alex",
        { demoUser with
            balance := demoUser.balance - 125000
            transactions :=
              { date := "2024-12-06"
                desc := "Transfer to " ++ sanitize_text "Alex"
                cat := "Transfer"
                amt := -125000
                txnType := "Debit" } :: demoUser.transactions
            history := demoUser.history ++ [demoUser.balance - 125000] }) :=
  (transfer_success_C5).1 demoUser "Alex" 125000 "2024-12-06"
    (by decide) (by decide) (by decide) (by decide)

/-- C6: every rejected transfer — amount below 1.00 rupees (100 paise),
amount above the caller-fixed ceiling 50000.00 rupees (5000000 paise), empty
sanitized recipient, or amount exceeding the balance — fails with the
corresponding per-field message and leaves the user record (balance,
transactions, history) unchanged. -/
theorem transfer_rejection_C6 (user : User) (r : String) (a : Int) (today : String) :
    (a < 100 → process_transfer user r a today =
      (false, "Amount must be at least Rs. 1.0", user)) ∧
    (a > 5000000 → process_transfer user r a today =
      (false, "Amount cannot exceed Rs. 50,000.00", user)) ∧
    (100 ≤ a → a ≤ 5000000 → sanitize_text r = "" →
      process_transfer user r a today = (false, "Recipient name is required", user)) ∧
    (100 ≤ a → a ≤ 5000000 → sanitize_text r ≠ "" → user.balance < a →
      process_transfer user r a today = (false, "Insufficient funds.", user)) := by
  refine ⟨?_, ?_, ?_, ?_⟩
  · intro h
    simp only [process_transfer, validate_amount, if_pos h]
    rfl
  · intro h
    have h1 : ¬ a < 100 := by omega
    simp only [process_transfer, validate_amount, if_neg h1, if_pos h]
    rfl
  · intro h1 h2 hr
    have hv : validate_amount a 5000000 100 = none := by
      rw [validate_amount, if_neg (not_lt.mpr h1), if_neg (not_lt.mpr h2)]
    simp only [process_transfer, hv, hr]
    rfl
  · intro h1 h2 hr hb
    have hv : validate_amount a 5000000 100 = none := by
      rw [validate_amount, if_neg (not_lt.mpr h1), if_neg (not_lt.mpr h2)]
    have hre : (sanitize_text r == "") = false := by
      simpa using hr
    simp only [process_transfer, hv, hre, Bool.false_eq_true, if_false, if_pos hb]

/-- Witness for C6 at concrete rejected transfers on the demo record:
0.50 rupees is too small, 100000.00 rupees exceeds the ceiling, a recipient
that sanitizes to empty is rejected, and 46000.00 rupees exceeds the
balance. -/
theorem transfer_rejection_C6_witness :
    process_transfer demoUser "Alex" 50 "2024-12-06" =
      (false, "Amount must be at least Rs. 1.0", demoUser) ∧
    process_transfer demoUser "Alex" 10000000 "2024-12-06" =
      (false, "Amount cannot exceed Rs. 50,000.00", demoUser) ∧
    process_transfer demoUser "<>" 125000 "2024-12-06" =
      (false, "Recipient name is required", demoUser) ∧
    process_transfer demoUser "Alex" 4600000 "2024-12-06" =
      (false, "Insufficient funds.", demoUser) :=
  ⟨(transfer_rejection_C6 demoUser "Alex" 50 "2024-12-06").1 (by decide),
   (transfer_rejection_C6 demoUser "Alex" 10000000 "2024-12-06").2.1 (by decide),
   (transfer_rejection_C6 demoUser "<>" 125000 "2024-12-06").2.2.1
     (by decide) (by decide) (by decide),
   (transfer_rejection_C6 demoUser "Alex" 4600000 "2024-12-06").2.2.2
     (by decide) (by decide) (by decide) (by decide)⟩

/-- C7: on a failed login with a well-formed, non-locked identifier, the
submit handler produces the same outcome whether the identifier is absent
from the credential store or the secret fails verification: one "Invalid
credentials" failure whose message depends only on the rate limiter —
`max_attempts − attempts_made` remaining attempts while positive, the lock
warning otherwise — so account existence is never disclosed. -/
theorem login_failure_uniform_C7
    (verify : String → String → Bool) (db1 db2 : List (String × User))
    (rl : RateLimiter) (ts : List Int) (uid pin : String) (now : Int)
    (h1 : lookupUser db1 uid = none)
    (h2 : ∀ u, lookupUser db2 uid = some u → verify pin u.hashed_pin = false)
    (hnl : (is_locked_out rl now ts).2.1 = false) :
    (login_submit verify db1 rl ts uid pin now).outcome =
      (login_submit verify db2 rl ts uid pin now).outcome ∧
    (login_submit verify db1 rl ts uid pin now).outcome =
      .failure
        (if (rl.max_attempts : Int)
            - (record_attempt rl now (is_locked_out rl now ts).1).length > 0 then
          "❌ Invalid credentials. "
            ++ toString ((rl.max_attempts : Int)
                - (record_attempt rl now (is_locked_out rl now ts).1).length)
            ++ " attempts remaining."
        else
          "❌ Invalid credentials. Account will be locked.") := by
  have hgen : ∀ db : List (String × User),
      (∀ u, lookupUser db uid = some u → verify pin u.hashed_pin = false) →
      (login_submit verify db rl ts uid pin now).outcome =
        .failure
          (if (rl.max_attempts : Int)
              - (record_attempt rl now (is_locked_out rl now ts).1).length > 0 then
            "❌ Invalid credentials. "
              ++ toString ((rl.max_attempts : Int)
                  - (record_attempt rl now (is_locked_out rl now ts).1).length)
              ++ " attempts remaining."
          else
            "❌ Invalid credentials. Account will be locked.") := by
    intro db hdb
    cases hdb2 : lookupUser db uid with
    | none => simp only [login_submit, hnl, Bool.false_eq_true, if_false, hdb2]
    | some u =>
      simp only [login_submit, hnl, Bool.false_eq_true, if_false, hdb2,
        hdb u hdb2]
  have hb1 := hgen db1 (fun u hu => by rw [h1] at hu; exact absurd hu (by simp))
  have hb2 := hgen db2 h2
  exact ⟨hb1.trans hb2.symm, hb1⟩

/-- Witness for C7: an unknown identifier against the empty store and the
same identifier with a failing verifier against a store that contains it
produce the same "Invalid credentials. 4 attempts remaining." outcome. -/
theorem login_failure_uniform_C7_witness :
    (login_submit (fun _ _ => false) [] ⟨5, 15⟩ [] "1234567890" "0000" 100).outcome =
      (login_submit (fun _ _ => false) [("1234567890", demoUser)] ⟨5, 15⟩ []
        "1234567890" "0000" 100).outcome ∧
    (login_submit (fun _ _ => false) [] ⟨5, 15⟩ [] "1234567890" "0000" 100).outcome =
      .failure "❌ Invalid credentials. 4 attempts remaining." := by
  have h := login_failure_uniform_C7 (fun _ _ => false) []
    [("1234567890", demoUser)] ⟨5, 15⟩ [] "1234567890" "0000" 100
    rfl (fun u _ => rfl) rfl
  exact ⟨h.1, h.2.trans (by decide)⟩

/-- Helper: `chPrefix` accepts a literal prefix. -/
theorem chPrefix_append (p r : List Char) : chPrefix p (p ++ r) = true := by
  induction p with
  | nil => rfl
  | cons a as ih => simp [chPrefix, ih]

/-- Helper: `splitAtDollar` splits at the first dollar character. -/
theorem splitAtDollar_append (s b : List Char) (h : '$' ∉ s) :
    splitAtDollar (s ++ '$' :: b) = some (s, b) := by
  induction s with
  | nil => simp [splitAtDollar]
  | cons c cs ih =>
    simp only [List.mem_cons, not_or] at h
    have hc : (c == '$') = false :=
      beq_eq_false_iff_ne.mpr (fun hEq => h.1 (hEq ▸ rfl))
    simp [splitAtDollar, hc, ih (fun hm => h.2 hm)]

/-- Helper: `bcrypt_checkpw` on a well-formed digest recomputes and compares. -/
theorem bcrypt_checkpw_hashpw (salt pw other : String) (hs : '$' ∉ salt.toList) :
    bcrypt_checkpw other (bcrypt_hashpw salt pw) =
      some (bcrypt_hashpw salt pw == bcrypt_hashpw salt other) := by
  have h1 : chPrefix "$2b$12$".toList (bcrypt_hashpw salt pw).toList = true :=
    chPrefix_append "$2b$12$".toList (salt.toList ++ '$' :: pw.toList)
  have h2 : (bcrypt_hashpw salt pw).toList.drop "$2b$12$".toList.length
      = salt.toList ++ '$' :: pw.toList :=
    List.drop_left "$2b$12$".toList (salt.toList ++ '$' :: pw.toList)
  simp only [bcrypt_checkpw, h1, if_true, h2, splitAtDollar_append _ _ hs]
  rfl

/-- C8: in the spec-modelled hasher, `verify` round-trips true on the digest
of the same secret, returns false for any different secret against that
digest, and returns false (instead of raising) whenever the digest is
malformed (the primitive signals an error). -/
theorem password_hasher_C8 :
    (∀ salt password : String, '$' ∉ salt.toList →
      verify_password password (hash_password salt password) = true) ∧
    (∀ salt password other : String, '$' ∉ salt.toList → other ≠ password →
      verify_password other (hash_password salt password) = false) ∧
    (∀ password hashed : String, bcrypt_checkpw password hashed = none →
      verify_password password hashed = false) := by
  refine ⟨?_, ?_, ?_⟩
  · intro salt pw hs
    simp only [verify_password, hash_password, bcrypt_checkpw_hashpw salt pw pw hs]
    exact beq_self_eq_true _
  · intro salt pw other hs hne
    simp only [verify_password, hash_password, bcrypt_checkpw_hashpw salt pw other hs]
    refine beq_eq_false_iff_ne.mpr ?_
    intro hEq
    have hdata : "$2b$12$".toList ++ (salt.toList ++ '$' :: pw.toList)
        = "$2b$12$".toList ++ (salt.toList ++ '$' :: other.toList) :=
      congrArg String.data hEq
    have hrest : salt.toList ++ '$' :: pw.toList = salt.toList ++ '$' :: other.toList :=
      List.append_cancel_left hdata
    have htail : '$' :: pw.toList = '$' :: other.toList :=
      List.append_cancel_left hrest
    have hpw : pw.data = other.data := by injection htail
    exact hne (String.ext hpw).symm
  · intro pw hashed h
    simp only [verify_password, h]

/-- Witness for C8 at concrete secrets, salt and a malformed digest. -/
theorem password_hasher_C8_witness :
    verify_password "0000" (hash_password "abc" "0000") = true ∧
    verify_password "0001" (hash_password "abc" "0000") = false ∧
    bcrypt_checkpw "0000" "not-a-hash" = none ∧
    verify_password "0000" "not-a-hash" = false :=
  ⟨(password_hasher_C8).1 "abc" "0000" (by decide),
   (password_hasher_C8).2.1 "abc" "0000" "0001" (by decide) (by decide),
   by decide,
   (password_hasher_C8).2.2 "0000" "not-a-hash" (by decide)⟩

end BankBot

